import Mathlib

/-!
Shallow embedding of the Twitch partner-plus point tracker
(`src/app/main.py`): a FastAPI webhook handler that keeps a per-user
in-memory accumulator (`user_states`), converts subscription tier into a
point increment, resets the total on UTC-month rollover, and persists each
record to a blob store as `state_{user_id}.json`.

Modelling conventions:
- Python numbers (`plus_points` mixes int and float; the only fractional
  increment is 2.5) are modelled as rationals `ℚ`.
- `datetime.now(UTC).strftime("%Y-%m")` (`get_current_month`) is impure; it
  is passed in as an explicit parameter `now : String`.
- The in-memory dict `user_states` is a function `String → Option UserState`;
  the blob store is a function from filename to `BlobResult`, where
  `BlobResult.error` stands for an exception raised while fetching or
  parsing a blob, and the `found` constructor carries `Option` fields to
  model `data.get("plus_points", 0)` / `data.get("month", ...)` defaults.
- `hmac.new(..).hexdigest()` is an external crypto primitive; it is passed
  in as an abstract parameter `hmacHex : String → String → String`
  (key, message ↦ hex digest).
- `blob.upload_from_string` may raise (the exception is swallowed by the
  source); the boolean `saveOk` selects whether the upload succeeds.
- FastAPI `JSONResponse(content=c)` renders its content with `json.dumps`;
  for a string content the body is the JSON string serialization, modelled
  by `jsonEncodeString`.
-/

namespace TwitchTracker

/-- A per-user accumulator record: the dict
`{"plus_points": ..., "month": ...}` stored in `user_states`. -/
structure UserState where
  plus_points : ℚ
  month : String
deriving DecidableEq, Repr

/-- The in-memory `user_states` dict, keyed by user id. -/
def Cache : Type := String → Option UserState

/-- Result of fetching a blob: the blob does not exist, or it exists and
parses to a JSON object whose `plus_points` / `month` fields may be absent,
or an exception occurred during fetch or parse. -/
inductive BlobResult where
  | absent : BlobResult
  | found : Option ℚ → Option String → BlobResult
  | error : BlobResult
deriving DecidableEq, Repr

/-- The durable blob store, keyed by filename. -/
def Store : Type := String → BlobResult

/-- Pointwise update of the cache: `user_states[user_id] = st`. -/
def Cache.update (c : Cache) (user_id : String) (st : UserState) : Cache :=
  fun k => if k = user_id then some st else c k

/-- `get_state_file`: `STATE_FILENAME_TEMPLATE.format(user_id=user_id)`
with template `"state_{user_id}.json"`. -/
def get_state_file (user_id : String) : String :=
  "state_" ++ user_id ++ ".json"

/-- `load_user_state(user_id)`: fetch the blob; if it exists, adopt its
fields with defaults `0` and the current month; if it does not exist, or
any exception occurs, initialize to `{"plus_points": 0, "month": now}`.
The exception handler makes this total: it never raises to the caller. -/
def load_user_state (store : Store) (now : String) (cache : Cache)
    (user_id : String) : Cache :=
  match store (get_state_file user_id) with
  | BlobResult.found pp m => Cache.update cache user_id ⟨pp.getD 0, m.getD now⟩
  | BlobResult.absent => Cache.update cache user_id ⟨0, now⟩
  | BlobResult.error => Cache.update cache user_id ⟨0, now⟩

/-- `save_user_state(user_id)`: upload `json.dumps(user_states[user_id])`
to `state_{user_id}.json`. `saveOk = false` models an exception from the
storage client, which the source logs and swallows (store unchanged); a
`KeyError` on a missing cache entry would be swallowed the same way. -/
def save_user_state (saveOk : Bool) (cache : Cache) (store : Store)
    (user_id : String) : Store :=
  match cache user_id with
  | some st =>
      if saveOk then
        fun k => if k = get_state_file user_id then
            BlobResult.found (some st.plus_points) (some st.month)
          else store k
      else store
  | none => store

/-- The guarded load pattern `if user_id not in user_states:
load_user_state(user_id)` that precedes every use of `user_states[user_id]`
in `get_points`, `set_points` and `handle_webhook`. -/
def ensureLoaded (store : Store) (now : String) (cache : Cache)
    (user_id : String) : Cache :=
  if (cache user_id).isSome then cache else load_user_state store now cache user_id

/-- The headers read by the handler; each may be absent from the request. -/
structure Headers where
  message_id : Option String
  timestamp : Option String
  signature : Option String
  msg_type : Option String
deriving DecidableEq, Repr

/-- The `event` object of a notification payload; `event.get(...)` returns
`None` for absent keys. -/
structure Event where
  broadcaster_user_id : Option String
  tier : Option String
deriving DecidableEq, Repr

/-- The parsed JSON payload of a webhook request (the fields the handler
reads). -/
structure Payload where
  challenge : Option String
  event : Option Event
deriving DecidableEq, Repr

/-- `payload.get("event", {})` yields the empty dict when absent. -/
def emptyEvent : Event := ⟨none, none⟩

/-- `verify_signature(request, body)`: empty `EVENTSUB_SECRET` short-circuits
to valid; otherwise recompute the HMAC-SHA256 hex digest of
`message_id + timestamp + body` and compare (`hmac.compare_digest`, which is
constant-time string equality) against the signature header. A `KeyError`
on any missing header is caught and yields `False`. -/
def verify_signature (hmacHex : String → String → String) (secret : String)
    (headers : Headers) (body : String) : Bool :=
  if secret = "" then true
  else
    match headers.message_id, headers.timestamp, headers.signature with
    | some message_id, some timestamp, some sig =>
        sig == "sha256=" ++ hmacHex secret (message_id ++ timestamp ++ body)
    | _, _, _ => false

/-- One JSON-escaped character, as `json.dumps` (with `ensure_ascii=False`,
as FastAPI's `JSONResponse` configures it) renders it. -/
def jsonEscapeChar (c : Char) : String :=
  if c = '"' then "\\\""
  else if c = '\\' then "\\\\"
  else if c = '\n' then "\\n"
  else if c = '\t' then "\\t"
  else if c = '\r' then "\\r"
  else if c.toNat < 32 then
    "\\u00" ++ String.singleton (Nat.digitChar (c.toNat / 16))
      ++ String.singleton (Nat.digitChar (c.toNat % 16))
  else String.singleton c

/-- `json.dumps` of a Python string: the body `JSONResponse` produces when
its content is a string — the string JSON-quoted, not the string itself. -/
def jsonEncodeString (s : String) : String :=
  "\"" ++ String.join (s.data.map jsonEscapeChar) ++ "\""

/-- The HTTP response of `GET /points`. `keyErr` marks the unreachable
`user_states[user_id]` lookup failure right after a guaranteed load. -/
inductive GetResponse where
  | oneUser : String → UserState → GetResponse
  | allStates : Cache → GetResponse
  | keyErr : GetResponse

/-- `GET /points`: with a truthy `user_id` (present and non-empty), load on
miss and return `{user_id: user_states[user_id]}`; otherwise return the
whole `user_states` dict. No rollover check is performed. -/
def get_points (store : Store) (now : String) (cache : Cache)
    (user_id : Option String) : Cache × GetResponse :=
  match user_id with
  | some u =>
      if u = "" then (cache, GetResponse.allStates cache)
      else
        let c1 := ensureLoaded store now cache u
        match c1 u with
        | some st => (c1, GetResponse.oneUser u st)
        | none => (c1, GetResponse.keyErr)
  | none => (cache, GetResponse.allStates cache)

/-- `POST /set-points`: load on miss, overwrite `plus_points` with `value`
(any integer) and `month` with the current month, save, and return the new
value (the `plus_points` field of the confirmation message). -/
def set_points (store : Store) (saveOk : Bool) (now : String) (cache : Cache)
    (user_id : String) (value : ℤ) : Cache × Store × ℤ :=
  let c1 := ensureLoaded store now cache user_id
  let c2 := Cache.update c1 user_id ⟨(value : ℚ), now⟩
  let s2 := save_user_state saveOk c2 store user_id
  (c2, s2, value)

/-- The tier-to-amount conditional expression of line 117:
`1 if tier == "1000" else 2 if tier == "2000" else 2.5 if tier == "3000"
else 0`, where `tier = event.get("tier")` may be `None`. -/
def tierAmount (tier : Option String) : ℚ :=
  if tier = some "1000" then 1
  else if tier = some "2000" then 2
  else if tier = some "3000" then 5 / 2
  else 0

/-- The HTTP response of `POST /webhook`. `challengeEcho` carries the
rendered response body; `added amount user_id` stands for the message
`"Added {amount} points to {user_id}"`; `serverError` marks an uncaught
`KeyError` (HTTP 500); `unhandled` is the fall-through acknowledgement. -/
inductive HookResponse where
  | httpError : Nat → String → HookResponse
  | challengeEcho : String → HookResponse
  | serverError : HookResponse
  | added : ℚ → String → HookResponse
  | unhandled : HookResponse
deriving DecidableEq, Repr

/-- `POST /webhook`: reject on bad signature (403, before any state is
touched); echo `JSONResponse(content=payload["challenge"])` on the
verification handshake (`payload["challenge"]` raises on a missing key);
on a notification, require a truthy broadcaster id (else 400), load on
miss, reset the record if the stored month differs from the current month,
add the tier amount, and save. Any other message type is acknowledged
without mutation. -/
def handle_webhook (hmacHex : String → String → String) (secret : String)
    (saveOk : Bool) (now : String) (headers : Headers) (body : String)
    (payload : Payload) (cache : Cache) (store : Store) :
    Cache × Store × HookResponse :=
  if verify_signature hmacHex secret headers body = false then
    (cache, store, HookResponse.httpError 403 "Invalid signature")
  else if headers.msg_type = some "webhook_callback_verification" then
    match payload.challenge with
    | some challenge => (cache, store, HookResponse.challengeEcho (jsonEncodeString challenge))
    | none => (cache, store, HookResponse.serverError)
  else if headers.msg_type = some "notification" then
    let event := payload.event.getD emptyEvent
    let user_id := event.broadcaster_user_id.getD ""
    if user_id = "" then
      (cache, store, HookResponse.httpError 400 "Missing broadcaster_user_id")
    else
      let c1 := ensureLoaded store now cache user_id
      match c1 user_id with
      | some st =>
          let st1 := if now ≠ st.month then UserState.mk 0 now else st
          let amount := tierAmount event.tier
          let c2 := Cache.update c1 user_id ⟨st1.plus_points + amount, st1.month⟩
          let s2 := save_user_state saveOk c2 store user_id
          (c2, s2, HookResponse.added amount user_id)
      | none => (c1, store, HookResponse.serverError)
  else (cache, store, HookResponse.unhandled)

/-- An operation on the shared state, as dispatched by the three HTTP
endpoints. -/
inductive Op where
  | getPoints : Option String → Op
  | setPoints : String → ℤ → Op
  | webhook : Headers → String → Payload → Op

/-- The state transition (cache and store) performed by one HTTP request. -/
def step (hmacHex : String → String → String) (secret : String) (saveOk : Bool)
    (now : String) (op : Op) (cache : Cache) (store : Store) : Cache × Store :=
  match op with
  | Op.getPoints uid => ((get_points store now cache uid).1, store)
  | Op.setPoints u v =>
      let r := set_points store saveOk now cache u v
      (r.1, r.2.1)
  | Op.webhook h b p =>
      let r := handle_webhook hmacHex secret saveOk now h b p cache store
      (r.1, r.2.1)

/-- Every cached record has a non-negative point total. -/
def CacheNonneg (c : Cache) : Prop :=
  ∀ v st, c v = some st → 0 ≤ st.plus_points

/-- Every stored record with a present `plus_points` field has a
non-negative point total. -/
def StoreNonneg (s : Store) : Prop :=
  ∀ k pp m p, s k = BlobResult.found pp m → pp = some p → 0 ≤ p

theorem Cache.update_self (c : Cache) (u : String) (st : UserState) :
    Cache.update c u st u = some st := by
  simp [Cache.update]

theorem Cache.update_ne (c : Cache) (u v : String) (st : UserState) (h : v ≠ u) :
    Cache.update c u st v = c v := by
  simp [Cache.update, h]

theorem load_user_state_isSome (store : Store) (now : String) (cache : Cache)
    (u : String) : ((load_user_state store now cache u) u).isSome = true := by
  unfold load_user_state
  cases h : store (get_state_file u) <;> simp [Cache.update_self]

theorem load_user_state_ne (store : Store) (now : String) (cache : Cache)
    (u v : String) (h : v ≠ u) : (load_user_state store now cache u) v = cache v := by
  unfold load_user_state
  cases hs : store (get_state_file u) <;> simp [Cache.update_ne _ _ _ _ h]

theorem ensureLoaded_isSome (store : Store) (now : String) (cache : Cache)
    (u : String) : ((ensureLoaded store now cache u) u).isSome = true := by
  unfold ensureLoaded
  by_cases h : (cache u).isSome <;> simp [h, load_user_state_isSome]

theorem ensureLoaded_ne (store : Store) (now : String) (cache : Cache)
    (u v : String) (h : v ≠ u) : (ensureLoaded store now cache u) v = cache v := by
  unfold ensureLoaded
  by_cases hc : (cache u).isSome <;> simp [hc, load_user_state_ne _ _ _ _ _ h]

theorem ensureLoaded_of_isSome (store : Store) (now : String) (cache : Cache)
    (u : String) (h : (cache u).isSome = true) :
    ensureLoaded store now cache u = cache := by
  unfold ensureLoaded
  simp [h]

theorem save_user_state_self (cache : Cache) (store : Store) (u : String)
    (st : UserState) (h : cache u = some st) :
    save_user_state true cache store u (get_state_file u)
      = BlobResult.found (some st.plus_points) (some st.month) := by
  unfold save_user_state
  rw [h]
  simp

theorem save_user_state_ne (saveOk : Bool) (cache : Cache) (store : Store)
    (u k : String) (h : k ≠ get_state_file u) :
    save_user_state saveOk cache store u k = store k := by
  unfold save_user_state
  cases cache u
  · rfl
  · cases saveOk <;> simp [h]

theorem handle_webhook_notification
    (hmacHex : String → String → String) (secret : String) (saveOk : Bool)
    (now : String) (headers : Headers) (body : String) (payload : Payload)
    (cache : Cache) (store : Store) (u : String) (st : UserState)
    (hsig : verify_signature hmacHex secret headers body = true)
    (htype : headers.msg_type = some "notification")
    (hu : ((payload.event.getD emptyEvent).broadcaster_user_id).getD "" = u)
    (hne : u ≠ "")
    (hld : (ensureLoaded store now cache u) u = some st) :
    handle_webhook hmacHex secret saveOk now headers body payload cache store
      = (Cache.update (ensureLoaded store now cache u) u
            ⟨(if now ≠ st.month then UserState.mk 0 now else st).plus_points
              + tierAmount (payload.event.getD emptyEvent).tier,
             (if now ≠ st.month then UserState.mk 0 now else st).month⟩,
         save_user_state saveOk
           (Cache.update (ensureLoaded store now cache u) u
             ⟨(if now ≠ st.month then UserState.mk 0 now else st).plus_points
               + tierAmount (payload.event.getD emptyEvent).tier,
              (if now ≠ st.month then UserState.mk 0 now else st).month⟩)
           store u,
         HookResponse.added (tierAmount (payload.event.getD emptyEvent).tier) u) := by
  unfold handle_webhook
  simp [hsig, htype, hu, hld, hne]

/-- C2: for every tier value t, the point increment computed for a
notification equals exactly 1 if t = "1000", 2 if t = "2000", 2.5 if
t = "3000", and 0 for any other value including an absent tier. -/
theorem tierAmount_mapping (t : Option String)
    (h1 : t ≠ some "1000") (h2 : t ≠ some "2000") (h3 : t ≠ some "3000") :
    tierAmount (some "1000") = 1 ∧ tierAmount (some "2000") = 2
    ∧ tierAmount (some "3000") = 5 / 2 ∧ tierAmount none = 0
    ∧ tierAmount t = 0 := by
  refine ⟨by simp [tierAmount], by simp [tierAmount], by simp [tierAmount],
    by simp [tierAmount], ?_⟩
  simp [tierAmount, h1, h2, h3]

/-- Witness for C2 at the concrete unmapped tier "abc". -/
theorem tierAmount_mapping_witness :
    tierAmount (some "1000") = 1 ∧ tierAmount (some "2000") = 2
    ∧ tierAmount (some "3000") = 5 / 2 ∧ tierAmount none = 0
    ∧ tierAmount (some "abc") = 0 :=
  tierAmount_mapping (some "abc") (by decide) (by decide) (by decide)

/-- C5: the load-on-miss step is idempotent — performing it twice in
succession leaves the cache identical to performing it once. -/
theorem ensureLoaded_idempotent (store : Store) (now : String) (cache : Cache)
    (u : String) :
    ensureLoaded store now (ensureLoaded store now cache u) u
      = ensureLoaded store now cache u :=
  ensureLoaded_of_isSome store now (ensureLoaded store now cache u) u
    (ensureLoaded_isSome store now cache u)

/-- C6: loading never raises: a found record's fields are adopted verbatim
with missing fields defaulting to 0 and the current period; an absent
record or a failed fetch initializes to 0 and the current period; in every
case the cache entry exists afterwards. -/
theorem load_user_state_spec (store : Store) (now : String) (cache : Cache)
    (u : String) :
    ((store (get_state_file u) = BlobResult.absent
        ∨ store (get_state_file u) = BlobResult.error) →
      (load_user_state store now cache u) u = some ⟨0, now⟩)
    ∧ (∀ pp m, store (get_state_file u) = BlobResult.found pp m →
      (load_user_state store now cache u) u = some ⟨pp.getD 0, m.getD now⟩)
    ∧ ((load_user_state store now cache u) u).isSome = true := by
  refine ⟨?_, ?_, load_user_state_isSome store now cache u⟩
  · rintro (h | h) <;> (unfold load_user_state; rw [h]; exact Cache.update_self _ _ _)
  · intro pp m h
    unfold load_user_state
    rw [h]
    exact Cache.update_self _ _ _

/-- Witness for C6: a stored record with both fields present is adopted
verbatim. -/
theorem load_user_state_spec_witness :
    (load_user_state
        (fun k => if k = "state_u.json" then BlobResult.found (some 3) (some "2024-01")
          else BlobResult.absent)
        "2024-06" (fun _ => none) "u") "u"
      = some ⟨(some (3 : ℚ)).getD 0, (some "2024-01").getD "2024-06"⟩ :=
  (load_user_state_spec
    (fun k => if k = "state_u.json" then BlobResult.found (some 3) (some "2024-01")
      else BlobResult.absent)
    "2024-06" (fun _ => none) "u").2.1 (some 3) (some "2024-01") (by decide)

/-- C1: a notification for a user whose record carries a periodKey
different from the current period resets the total to 0 and the periodKey
to the current period before the tier amount is added, so the final total
equals the new amount alone. -/
theorem notification_rolls_over_before_adding
    (hmacHex : String → String → String) (secret : String) (saveOk : Bool)
    (now : String) (headers : Headers) (body : String) (payload : Payload)
    (cache : Cache) (store : Store) (u : String) (st : UserState)
    (hsig : verify_signature hmacHex secret headers body = true)
    (htype : headers.msg_type = some "notification")
    (hu : (payload.event.getD emptyEvent).broadcaster_user_id = some u)
    (hne : u ≠ "")
    (hld : (ensureLoaded store now cache u) u = some st)
    (hstale : st.month ≠ now) :
    ((handle_webhook hmacHex secret saveOk now headers body payload cache store).1) u
      = some ⟨tierAmount ((payload.event.getD emptyEvent).tier), now⟩ := by
  have hu2 : ((payload.event.getD emptyEvent).broadcaster_user_id).getD "" = u := by
    rw [hu]
    rfl
  rw [handle_webhook_notification hmacHex secret saveOk now headers body payload
    cache store u st hsig htype hu2 hne hld]
  have hns : now ≠ st.month := Ne.symm hstale
  simp [Cache.update_self, hns]

/-- Witness for C1: periodKey "2024-05", total 7, current period "2024-06",
tier "1000" — the final total is 1, not 8. -/
theorem notification_rolls_over_before_adding_witness :
    ((handle_webhook (fun _ _ => "") "" true "2024-06"
        ⟨none, none, none, some "notification"⟩ ""
        ⟨none, some ⟨some "u", some "1000"⟩⟩
        (fun k => if k = "u" then some ⟨7, "2024-05"⟩ else none)
        (fun _ => BlobResult.absent)).1) "u"
      = some ⟨1, "2024-06"⟩ := by
  have h := notification_rolls_over_before_adding (fun _ _ => "") "" true "2024-06"
    ⟨none, none, none, some "notification"⟩ ""
    ⟨none, some ⟨some "u", some "1000"⟩⟩
    (fun k => if k = "u" then some ⟨7, "2024-05"⟩ else none)
    (fun _ => BlobResult.absent) "u" ⟨7, "2024-05"⟩
    rfl rfl rfl (by decide) (by decide) (by decide)
  simpa [tierAmount] using h

/-- C3 counterexample: with a cached record from "2024-05" holding 7 points
and the current period "2024-06", GET /points returns the stale record —
the nonzero total accumulated under the older periodKey is visible in the
newer period. -/
theorem stale_total_visible_to_get_points :
    ((get_points (fun _ => BlobResult.absent) "2024-06"
        (fun k => if k = "u" then some ⟨7, "2024-05"⟩ else none) (some "u")).2
      = GetResponse.oneUser "u" ⟨7, "2024-05"⟩)
    ∧ (7 : ℚ) ≠ 0 ∧ ("2024-05" : String) ≠ "2024-06" := by
  refine ⟨rfl, by norm_num, by decide⟩

/-- C3 amended: reads perform no rollover check — GET /points returns a
loaded record verbatim even when its periodKey is older than the current
period, leaving the cache unchanged; the reset to zero happens only in the
mutating paths (the notification pipeline, before the increment, and
set-points). -/
theorem get_points_no_rollover (store : Store) (now : String) (cache : Cache)
    (u : String) (st : UserState) (hu : u ≠ "") (h : cache u = some st)
    (_hstale : st.month ≠ now) :
    get_points store now cache (some u) = (cache, GetResponse.oneUser u st) := by
  have hload : ensureLoaded store now cache u = cache :=
    ensureLoaded_of_isSome store now cache u (by rw [h]; rfl)
  unfold get_points
  simp [hu, hload, h]

/-- Witness for C3 amended: the stale record ⟨7, "2024-05"⟩ is returned
verbatim when the current period is "2024-06". -/
theorem get_points_no_rollover_witness :
    get_points (fun _ => BlobResult.absent) "2024-06"
        (fun k => if k = "u" then some ⟨7, "2024-05"⟩ else none) (some "u")
      = ((fun k => if k = "u" then some ⟨7, "2024-05"⟩ else none),
         GetResponse.oneUser "u" ⟨7, "2024-05"⟩) :=
  get_points_no_rollover (fun _ => BlobResult.absent) "2024-06"
    (fun k => if k = "u" then some ⟨7, "2024-05"⟩ else none) "u" ⟨7, "2024-05"⟩
    (by decide) (by decide) (by decide)

/-- C4: set-points overwrites the total with exactly the given integer,
refreshes the periodKey to the current period even if unchanged, and saves
durably; a subsequent GET /points returns the new total and period. -/
theorem set_points_overwrites_and_saves (store : Store) (saveOk : Bool)
    (now : String) (cache : Cache) (u : String) (value : ℤ) (hu : u ≠ "") :
    (set_points store saveOk now cache u value).1 u = some ⟨(value : ℚ), now⟩
    ∧ (get_points store now (set_points store saveOk now cache u value).1 (some u)).2
        = GetResponse.oneUser u ⟨(value : ℚ), now⟩
    ∧ (saveOk = true →
        (set_points store saveOk now cache u value).2.1 (get_state_file u)
          = BlobResult.found (some (value : ℚ)) (some now)) := by
  have h1 : (set_points store saveOk now cache u value).1 u
      = some ⟨(value : ℚ), now⟩ := Cache.update_self _ _ _
  refine ⟨h1, ?_, ?_⟩
  · have hload : ensureLoaded store now (set_points store saveOk now cache u value).1 u
        = (set_points store saveOk now cache u value).1 :=
      ensureLoaded_of_isSome _ _ _ _ (by rw [h1]; rfl)
    unfold get_points
    simp [hu, hload, h1]
  · intro hs
    subst hs
    exact save_user_state_self _ _ _ _ (Cache.update_self _ _ _)

/-- Witness for C4: setting user "user" to 10 in period "2024-06" yields a
cache entry ⟨10, "2024-06"⟩, a GET response with the same record, and a
stored blob with both fields. -/
theorem set_points_overwrites_and_saves_witness :
    (set_points (fun _ => BlobResult.absent) true "2024-06" (fun _ => none)
        "user" 10).1 "user" = some ⟨(10 : ℚ), "2024-06"⟩
    ∧ (get_points (fun _ => BlobResult.absent) "2024-06"
        (set_points (fun _ => BlobResult.absent) true "2024-06" (fun _ => none)
          "user" 10).1 (some "user")).2
        = GetResponse.oneUser "user" ⟨(10 : ℚ), "2024-06"⟩
    ∧ (set_points (fun _ => BlobResult.absent) true "2024-06" (fun _ => none)
        "user" 10).2.1 (get_state_file "user")
        = BlobResult.found (some (10 : ℚ)) (some "2024-06") :=
  ⟨(set_points_overwrites_and_saves (fun _ => BlobResult.absent) true "2024-06"
      (fun _ => none) "user" 10 (by decide)).1,
   (set_points_overwrites_and_saves (fun _ => BlobResult.absent) true "2024-06"
      (fun _ => none) "user" 10 (by decide)).2.1,
   (set_points_overwrites_and_saves (fun _ => BlobResult.absent) true "2024-06"
      (fun _ => none) "user" 10 (by decide)).2.2 rfl⟩

/-- C7: with a non-empty shared secret, a missing or mismatching signature
makes verification fail and the webhook is rejected with a 403 client error
before any state is touched (cache and store returned unchanged); with an
empty shared secret, verification succeeds regardless of the headers. -/
theorem webhook_signature_gate (hmacHex : String → String → String)
    (secret : String) (headers h2 : Headers) (body b2 : String)
    (payload : Payload) (cache : Cache) (store : Store) (saveOk : Bool)
    (now : String) (hsec : secret ≠ "")
    (hbad : headers.signature = none
      ∨ verify_signature hmacHex secret headers body = false) :
    verify_signature hmacHex secret headers body = false
    ∧ handle_webhook hmacHex secret saveOk now headers body payload cache store
        = (cache, store, HookResponse.httpError 403 "Invalid signature")
    ∧ verify_signature hmacHex "" h2 b2 = true := by
  have hv : verify_signature hmacHex secret headers body = false := by
    rcases hbad with h | h
    · obtain ⟨mi, ts, sg, mt⟩ := headers
      simp only at h
      subst h
      unfold verify_signature
      rw [if_neg hsec]
      cases mi <;> cases ts <;> rfl
    · exact h
  refine ⟨hv, ?_, ?_⟩
  · unfold handle_webhook
    rw [hv]
    simp
  · unfold verify_signature
    rw [if_pos rfl]

/-- Witness for C7: secret "s", headers with id and timestamp but no
signature header. -/
theorem webhook_signature_gate_witness :
    verify_signature (fun _ _ => "d") "s"
        ⟨some "mid", some "ts", none, some "notification"⟩ "body" = false
    ∧ handle_webhook (fun _ _ => "d") "s" true "2024-06"
        ⟨some "mid", some "ts", none, some "notification"⟩ "body"
        ⟨none, none⟩ (fun _ => none) (fun _ => BlobResult.absent)
        = ((fun _ => none), (fun _ => BlobResult.absent),
           HookResponse.httpError 403 "Invalid signature")
    ∧ verify_signature (fun _ _ => "d") "" ⟨none, none, none, none⟩ "b" = true :=
  webhook_signature_gate (fun _ _ => "d") "s"
    ⟨some "mid", some "ts", none, some "notification"⟩ ⟨none, none, none, none⟩
    "body" "b" ⟨none, none⟩ (fun _ => none) (fun _ => BlobResult.absent)
    true "2024-06" (by decide) (Or.inl rfl)

theorem tierAmount_nonneg (t : Option String) : 0 ≤ tierAmount t := by
  unfold tierAmount
  split_ifs <;> norm_num

theorem Cache.update_nonneg (c : Cache) (u : String) (st : UserState)
    (hc : CacheNonneg c) (h : 0 ≤ st.plus_points) :
    CacheNonneg (Cache.update c u st) := by
  intro v stv hv
  by_cases hvu : v = u
  · subst hvu
    rw [Cache.update_self] at hv
    simp only [Option.some.injEq] at hv
    rw [← hv]
    exact h
  · rw [Cache.update_ne _ _ _ _ hvu] at hv
    exact hc v stv hv

theorem load_user_state_nonneg (store : Store) (now : String) (cache : Cache)
    (u : String) (hc : CacheNonneg cache) (hs : StoreNonneg store) :
    CacheNonneg (load_user_state store now cache u) := by
  unfold load_user_state
  rcases hblob : store (get_state_file u) with _ | ⟨pp, m⟩ | _
  · exact Cache.update_nonneg cache u _ hc (by norm_num)
  · refine Cache.update_nonneg cache u _ hc ?_
    rcases pp with _ | p
    · norm_num
    · exact hs (get_state_file u) (some p) m p hblob rfl
  · exact Cache.update_nonneg cache u _ hc (by norm_num)

theorem ensureLoaded_nonneg (store : Store) (now : String) (cache : Cache)
    (u : String) (hc : CacheNonneg cache) (hs : StoreNonneg store) :
    CacheNonneg (ensureLoaded store now cache u) := by
  unfold ensureLoaded
  by_cases h : (cache u).isSome
  · simpa [h] using hc
  · simpa [h] using load_user_state_nonneg store now cache u hc hs

theorem save_user_state_nonneg (saveOk : Bool) (cache : Cache) (store : Store)
    (u : String) (hc : CacheNonneg cache) (hs : StoreNonneg store) :
    StoreNonneg (save_user_state saveOk cache store u) := by
  intro k pp m p hk hp
  unfold save_user_state at hk
  rcases hcu : cache u with _ | st
  · rw [hcu] at hk
    exact hs k pp m p hk hp
  · rw [hcu] at hk
    cases saveOk
    · simp only [Bool.false_eq_true, if_false] at hk
      exact hs k pp m p hk hp
    · simp only [if_true] at hk
      by_cases hkf : k = get_state_file u
      · rw [if_pos hkf] at hk
        simp only [BlobResult.found.injEq] at hk
        rw [hp] at hk
        simp only [Option.some.injEq] at hk
        rw [← hk.1]
        exact hc u st hcu
      · rw [if_neg hkf] at hk
        exact hs k pp m p hk hp

theorem handle_webhook_nonneg (hmacHex : String → String → String)
    (secret : String) (saveOk : Bool) (now : String) (headers : Headers)
    (body : String) (payload : Payload) (cache : Cache) (store : Store)
    (hc : CacheNonneg cache) (hs : StoreNonneg store) :
    CacheNonneg (handle_webhook hmacHex secret saveOk now headers body payload cache store).1
    ∧ StoreNonneg (handle_webhook hmacHex secret saveOk now headers body payload cache store).2.1 := by
  cases hv : verify_signature hmacHex secret headers body with
  | false =>
    simp only [handle_webhook, hv, if_true]
    exact ⟨hc, hs⟩
  | true =>
    by_cases h2 : headers.msg_type = some "webhook_callback_verification"
    · rcases hch : payload.challenge with _ | c <;>
        simp only [handle_webhook, hv, h2, hch, if_true, if_false] <;>
        simp <;> exact ⟨hc, hs⟩
    · by_cases h3 : headers.msg_type = some "notification"
      · by_cases h4 : ((payload.event.getD emptyEvent).broadcaster_user_id).getD "" = ""
        · simp only [handle_webhook, hv, h2, h3, h4]
          simp
          exact ⟨hc, hs⟩
        · have hcl : CacheNonneg
              (ensureLoaded store now cache
                (((payload.event.getD emptyEvent).broadcaster_user_id).getD "")) :=
            ensureLoaded_nonneg store now cache _ hc hs
          rcases hld : (ensureLoaded store now cache
              (((payload.event.getD emptyEvent).broadcaster_user_id).getD ""))
              (((payload.event.getD emptyEvent).broadcaster_user_id).getD "")
            with _ | st
          · simp only [handle_webhook, hv, h2, h3, h4, hld]
            simp [h4, hld]
            exact ⟨hcl, hs⟩
          · simp only [handle_webhook, hv, h2, h3, h4, hld]
            simp [h4, hld]
            constructor
            · refine Cache.update_nonneg _ _ _ hcl ?_
              have hst : 0 ≤ st.plus_points := hcl _ st hld
              have ha := tierAmount_nonneg (payload.event.getD emptyEvent).tier
              by_cases hm : now = st.month
              · simpa [hm] using add_nonneg hst ha
              · simpa [hm] using ha
            · refine save_user_state_nonneg _ _ _ _ ?_ hs
              refine Cache.update_nonneg _ _ _ hcl ?_
              have hst : 0 ≤ st.plus_points := hcl _ st hld
              have ha := tierAmount_nonneg (payload.event.getD emptyEvent).tier
              by_cases hm : now = st.month
              · simpa [hm] using add_nonneg hst ha
              · simpa [hm] using ha
      · simp only [handle_webhook, hv, h2, h3]
        simp
        exact ⟨hc, hs⟩

theorem get_points_fst_some (store : Store) (now : String) (cache : Cache)
    (u : String) (hu : u ≠ "") :
    (get_points store now cache (some u)).1 = ensureLoaded store now cache u := by
  rcases h : (ensureLoaded store now cache u) u with _ | st <;>
    simp [get_points, hu, h]

theorem handle_webhook_frame (hmacHex : String → String → String)
    (secret : String) (saveOk : Bool) (now : String) (headers : Headers)
    (body : String) (payload : Payload) (cache : Cache) (store : Store)
    (u : String)
    (hb : ((payload.event.getD emptyEvent).broadcaster_user_id).getD "" = u) :
    (∀ v, v ≠ u →
      (handle_webhook hmacHex secret saveOk now headers body payload cache store).1 v
        = cache v)
    ∧ (∀ k, k ≠ get_state_file u →
      (handle_webhook hmacHex secret saveOk now headers body payload cache store).2.1 k
        = store k) := by
  cases hv : verify_signature hmacHex secret headers body with
  | false => simp [handle_webhook, hv]
  | true =>
    by_cases h2 : headers.msg_type = some "webhook_callback_verification"
    · rcases hch : payload.challenge with _ | c <;> simp [handle_webhook, hv, h2, hch]
    · by_cases h3 : headers.msg_type = some "notification"
      · by_cases h4 : u = ""
        · simp [handle_webhook, hv, h2, h3, hb, h4]
        · rcases hld : (ensureLoaded store now cache u) u with _ | st
          · simp only [handle_webhook, hv, h2, h3, hb, h4, hld]
            simp [h4, hld]
            exact fun v hvne => ensureLoaded_ne store now cache u v hvne
          · simp only [handle_webhook, hv, h2, h3, hb, h4, hld]
            simp [h4, hld]
            constructor
            · intro v hvne
              rw [Cache.update_ne _ _ _ _ hvne]
              exact ensureLoaded_ne store now cache u v hvne
            · intro k hk
              exact save_user_state_ne _ _ _ _ _ hk
      · simp [handle_webhook, hv, h2, h3]

/-- C8 (code bug): on the verification handshake the response body is the
JSON serialization of the challenge string — quoted — not the challenge
echoed verbatim: for challenge "abc" the body has five characters, not
three. -/
theorem challenge_echo_is_json_quoted_not_verbatim :
    (handle_webhook (fun _ _ => "") "" true "2024-06"
        ⟨none, none, none, some "webhook_callback_verification"⟩ ""
        ⟨some "abc", none⟩ (fun _ => none) (fun _ => BlobResult.absent)).2.2
      = HookResponse.challengeEcho (jsonEncodeString "abc")
    ∧ jsonEncodeString "abc" = "\"abc\""
    ∧ "\"abc\"" ≠ "abc" := by
  refine ⟨rfl, by decide, by decide⟩

/-- C9 counterexample: POST /set-points accepts any integer, so setting a
user to -1 from a non-negative state leaves a negative stored total. -/
theorem set_points_negative_value_counterexample :
    ((set_points (fun _ => BlobResult.absent) true "2024-06"
        (fun k => if k = "u" then some ⟨0, "2024-06"⟩ else none) "u" (-1)).1 "u"
      = some ⟨((-1 : ℤ) : ℚ), "2024-06"⟩)
    ∧ ¬ (0 : ℚ) ≤ ((-1 : ℤ) : ℚ) := by
  refine ⟨rfl, by norm_num⟩

/-- C9 amended: every operation except a set-points with a negative value
preserves non-negativity — if every cached and stored total is ≥ 0 and any
set-points value is ≥ 0, the totals after the step are still ≥ 0 (loads
adopt stored values, rollover resets to 0, increments add a non-negative
tier amount, and saves write back cached values); set-points stores its
integer argument verbatim, so a negative value breaks the invariant. -/
theorem step_preserves_nonneg (hmacHex : String → String → String)
    (secret : String) (saveOk : Bool) (now : String) (op : Op) (cache : Cache)
    (store : Store) (hc : CacheNonneg cache) (hs : StoreNonneg store)
    (hset : ∀ u v, op = Op.setPoints u v → 0 ≤ v) :
    CacheNonneg (step hmacHex secret saveOk now op cache store).1
    ∧ StoreNonneg (step hmacHex secret saveOk now op cache store).2 := by
  cases op with
  | getPoints uid =>
    refine ⟨?_, hs⟩
    rcases uid with _ | u
    · exact hc
    · by_cases hu : u = ""
      · simpa [step, get_points, hu] using hc
      · have h1 := get_points_fst_some store now cache u hu
        simp only [step, h1]
        exact ensureLoaded_nonneg store now cache u hc hs
  | setPoints u v =>
    have hv : (0 : ℚ) ≤ (v : ℚ) := by
      exact_mod_cast hset u v rfl
    have hc2 : CacheNonneg
        (Cache.update (ensureLoaded store now cache u) u ⟨(v : ℚ), now⟩) :=
      Cache.update_nonneg _ _ _ (ensureLoaded_nonneg store now cache u hc hs) hv
    exact ⟨hc2, save_user_state_nonneg saveOk _ store u hc2 hs⟩
  | webhook h b p =>
    exact handle_webhook_nonneg hmacHex secret saveOk now h b p cache store hc hs

/-- Witness for C9 amended: a set-points step with value 2 from the empty
state keeps both the cache and the store non-negative. -/
theorem step_preserves_nonneg_witness :
    CacheNonneg (step (fun _ _ => "") "" true "2024-06" (Op.setPoints "u" 2)
        (fun _ => none) (fun _ => BlobResult.absent)).1
    ∧ StoreNonneg (step (fun _ _ => "") "" true "2024-06" (Op.setPoints "u" 2)
        (fun _ => none) (fun _ => BlobResult.absent)).2 :=
  step_preserves_nonneg (fun _ _ => "") "" true "2024-06" (Op.setPoints "u" 2)
    (fun _ => none) (fun _ => BlobResult.absent)
    (fun _ _ h => Option.noConfusion h)
    (fun _ _ _ _ h _ => BlobResult.noConfusion h)
    (fun u v h => by
      injection h with h1 h2
      rw [← h2]
      norm_num)

/-- C10: an operation targeting user u — GET /points for u, POST
/set-points for u, or a webhook notification whose broadcaster id is u —
leaves every other user's cache entry unchanged and writes the durable
store only under u's state-file key. -/
theorem single_user_ops_frame (hmacHex : String → String → String)
    (secret : String) (saveOk : Bool) (now : String) (cache : Cache)
    (store : Store) (u v k : String) (headers : Headers) (body : String)
    (payload : Payload) (value : ℤ)
    (hb : ((payload.event.getD emptyEvent).broadcaster_user_id).getD "" = u)
    (hv : v ≠ u) (hk : k ≠ get_state_file u) :
    (get_points store now cache (some u)).1 v = cache v
    ∧ (set_points store saveOk now cache u value).1 v = cache v
    ∧ (set_points store saveOk now cache u value).2.1 k = store k
    ∧ (handle_webhook hmacHex secret saveOk now headers body payload cache store).1 v
        = cache v
    ∧ (handle_webhook hmacHex secret saveOk now headers body payload cache store).2.1 k
        = store k := by
  have hweb := handle_webhook_frame hmacHex secret saveOk now headers body
    payload cache store u hb
  refine ⟨?_, ?_, ?_, hweb.1 v hv, hweb.2 k hk⟩
  · by_cases hu : u = ""
    · simp [get_points, hu]
    · rw [get_points_fst_some store now cache u hu]
      exact ensureLoaded_ne store now cache u v hv
  · show Cache.update (ensureLoaded store now cache u) u ⟨(value : ℚ), now⟩ v
      = cache v
    rw [Cache.update_ne _ _ _ _ hv]
    exact ensureLoaded_ne store now cache u v hv
  · exact save_user_state_ne _ _ _ _ _ hk

/-- Witness for C10: a notification for broadcaster "u" and a set-points
for "u" leave user "v" and the unrelated store key "other.json"
untouched. -/
theorem single_user_ops_frame_witness :
    (get_points (fun _ => BlobResult.absent) "2024-06" (fun _ => none)
        (some "u")).1 "v" = (fun _ => (none : Option UserState)) "v"
    ∧ (set_points (fun _ => BlobResult.absent) true "2024-06" (fun _ => none)
        "u" 3).1 "v" = (fun _ => (none : Option UserState)) "v"
    ∧ (set_points (fun _ => BlobResult.absent) true "2024-06" (fun _ => none)
        "u" 3).2.1 "other.json" = (fun _ => BlobResult.absent) "other.json"
    ∧ (handle_webhook (fun _ _ => "") "" true "2024-06"
        ⟨none, none, none, some "notification"⟩ ""
        ⟨none, some ⟨some "u", some "1000"⟩⟩ (fun _ => none)
        (fun _ => BlobResult.absent)).1 "v"
        = (fun _ => (none : Option UserState)) "v"
    ∧ (handle_webhook (fun _ _ => "") "" true "2024-06"
        ⟨none, none, none, some "notification"⟩ ""
        ⟨none, some ⟨some "u", some "1000"⟩⟩ (fun _ => none)
        (fun _ => BlobResult.absent)).2.1 "other.json"
        = (fun _ => BlobResult.absent) "other.json" :=
  single_user_ops_frame (fun _ _ => "") "" true "2024-06" (fun _ => none)
    (fun _ => BlobResult.absent) "u" "v" "other.json"
    ⟨none, none, none, some "notification"⟩ ""
    ⟨none, some ⟨some "u", some "1000"⟩⟩ 3
    (by decide) (by decide) (by decide)

end TwitchTracker
